import Mathlib

/-!
Verification of the survival-colony simulator (`app.py`).

The Python source is shallowly embedded: Python numbers (ints promoted to
floats by arithmetic) are modelled as rationals `ℚ`; `random.randint` draws
become explicit parameters (`roll` for the event draw, `amt` for the
event-magnitude draw); the mutable objects (`Base`, the local running
`food`/`medicine`/`morale` variables and the `log` list) become an explicit
`SimState` threaded through the day loop.
-/

namespace WDS

/-- Round half to even (Python's `round` tie-breaking rule) on rationals. -/
def roundHalfEven (q : ℚ) : ℤ :=
  if Int.fract q = 1 / 2 then 2 * round (q / 2) else round q

/-- Round a rational to 2 decimal places, as Python's `round(x, 2)`. -/
def round2 (q : ℚ) : ℚ := (roundHalfEven (q * 100) : ℚ) / 100

/-- `class Survivor` of `app.py`. -/
structure Survivor where
  name : String
  strength : ℚ
  intelligence : ℚ
  stamina : ℚ
  morale : ℚ
  role : String
  alive : Bool := true
deriving Repr, DecidableEq

/-- `Survivor.combat_power`. -/
def Survivor.combat_power (s : Survivor) : ℚ :=
  round2 (s.strength * 0.5 + s.stamina * 0.3 + s.morale * 0.2)

/-- `Survivor.efficiency`. -/
def Survivor.efficiency (s : Survivor) : ℚ :=
  round2 ((s.intelligence + s.stamina) / 2)

/-- `class Base` of `app.py`. -/
structure Base where
  name : String
  defense : ℚ
  food : ℚ
  medicine : ℚ
  population : ℚ
deriving Repr, DecidableEq

/-- `Base.safety_score`. -/
def Base.safety_score (b : Base) : ℚ :=
  round2 ((b.defense + b.population) / 2)

/-- `class Threat` of `app.py` (inert reference data). -/
structure Threat where
  name : String
  danger : ℚ
  frequency : ℚ
deriving Repr, DecidableEq

/-- `class Transport` of `app.py`; the four subclasses only fix the tuple. -/
structure Transport where
  name : String
  noise : ℚ
  capacity : ℚ
  speed : ℚ
deriving Repr, DecidableEq

/-- `Transport.risk`. -/
def Transport.risk (t : Transport) : ℚ :=
  round2 (t.noise * 0.6 + (10 - t.speed) * 0.4)

/-- `class OnFoot(Transport)`. -/
def OnFoot : Transport := ⟨"On Foot", 2, 3, 4⟩

/-- `class Horse(Transport)`. -/
def Horse : Transport := ⟨"Horse", 3, 2, 6⟩

/-- `class Car(Transport)`. -/
def Car : Transport := ⟨"Car", 8, 5, 9⟩

/-- `class Truck(Transport)`. -/
def Truck : Transport := ⟨"Truck", 9, 8, 7⟩

/-- The fixed `SURVIVORS` roster of `app.py`. -/
def SURVIVORS : List Survivor :=
  [⟨"Rick", 9, 7, 8, 9, "Leader", true⟩,
   ⟨"Daryl", 10, 6, 9, 8, "Hunter", true⟩,
   ⟨"Michonne", 9, 8, 8, 8, "Warrior", true⟩,
   ⟨"Carol", 7, 9, 7, 9, "Strategist", true⟩,
   ⟨"Glenn", 6, 8, 8, 8, "Scout", true⟩]

/-- `BASES["Prison"]`. -/
def Prison : Base := ⟨"Prison", 9, 70, 50, 30⟩

/-- `BASES["Alexandria"]`. -/
def Alexandria : Base := ⟨"Alexandria", 7, 80, 60, 45⟩

/-- `BASES["Hilltop"]`. -/
def Hilltop : Base := ⟨"Hilltop", 6, 90, 40, 50⟩

/-- `daily_food_consumption(population)`. -/
def daily_food_consumption (population : ℚ) : ℚ := population * 0.8

/-- Average morale of a roster: `sum(s.morale for s in survivors) / len(survivors)`. -/
def avgMorale (survivors : List Survivor) : ℚ :=
  (survivors.map Survivor.morale).sum / (survivors.length : ℚ)

/-- `morale_change(base, survivors)`. -/
def morale_change (base : Base) (survivors : List Survivor) : ℚ :=
  let avg_morale := avgMorale survivors
  if base.food < 20 then -2
  else if avg_morale > 8 then 1
  else 0

/-- `random_event()` with the `random.randint(1, 100)` draw made explicit. -/
def random_event (roll : ℤ) : String :=
  if roll < 30 then "Walker attack"
  else if roll < 45 then "Illness outbreak"
  else if roll < 60 then "Internal conflict"
  else if roll < 75 then "Successful scavenging"
  else "Quiet day"

/-- One day's random draws: the event roll (`random.randint(1, 100)`) and the
event-magnitude draw `amt` consumed by the branch that fires (if any). -/
structure DayRand where
  roll : ℤ
  amt : ℤ
deriving Repr, DecidableEq

/-- Admissible range of the magnitude draw for each event, per the
`random.randint` bounds in the corresponding branch of the day loop. -/
def amtRange (event : String) (amt : ℤ) : Prop :=
  if event = "Walker attack" then 0 ≤ amt ∧ amt ≤ 2
  else if event = "Illness outbreak" then 2 ≤ amt ∧ amt ≤ 6
  else if event = "Successful scavenging" then 10 ≤ amt ∧ amt ≤ 25
  else True

instance (event : String) (amt : ℤ) : Decidable (amtRange event amt) := by
  unfold amtRange; infer_instance

/-- A day's draws are valid when the roll is in `[1, 100]` and the magnitude
is in the range `random.randint` would produce for the sampled event. -/
def DayRand.valid (r : DayRand) : Prop :=
  1 ≤ r.roll ∧ r.roll ≤ 100 ∧ amtRange (random_event r.roll) r.amt

instance (r : DayRand) : Decidable r.valid := by
  unfold DayRand.valid; infer_instance

/-- The mutable state of one simulation run: the shared `Base` object plus the
local running `food`, `medicine`, `morale` variables and the `log` list. -/
structure SimState where
  base : Base
  food : ℚ
  medicine : ℚ
  morale : ℚ
  log : List String
deriving Repr, DecidableEq

/-- The log line `f"Day {d+1}: {event}"`. -/
def logEntry (n : ℕ) (event : String) : String :=
  "Day " ++ toString n ++ ": " ++ event

/-- State at the top of the simulation section: `food = base.food`,
`medicine = base.medicine`, `morale = avg of SURVIVORS`, `log = []`. -/
def initState (base : Base) (survivors : List Survivor) : SimState :=
  { base := base
    food := base.food
    medicine := base.medicine
    morale := avgMorale survivors
    log := [] }

/-- One iteration of the `for d in range(days)` loop, for 0-based day `d`:
sample the event, decrement food, apply the morale delta, apply the
event-specific branch, append the log line. -/
def simDay (survivors : List Survivor) (d : ℕ) (r : DayRand) (st : SimState) : SimState :=
  let event := random_event r.roll
  let food := st.food - daily_food_consumption st.base.population
  let morale := st.morale + morale_change st.base survivors
  let st1 : SimState :=
    if event = "Walker attack" then
      { st with base := { st.base with defense := st.base.defense - (r.amt : ℚ) }
                food := food
                morale := morale - 1 }
    else if event = "Illness outbreak" then
      { st with medicine := st.medicine - (r.amt : ℚ)
                food := food
                morale := morale - 2 }
    else if event = "Successful scavenging" then
      { st with food := food + (r.amt : ℚ)
                morale := morale + 2 }
    else
      { st with food := food, morale := morale }
  { st1 with log := st1.log ++ [logEntry (d + 1) event] }

/-- The day loop from 0-based day `d` on, one `DayRand` per remaining day. -/
def runSimAux (survivors : List Survivor) : ℕ → List DayRand → SimState → SimState
  | _, [], st => st
  | d, r :: rs, st => runSimAux survivors (d + 1) rs (simDay survivors d r st)

/-- The whole `for d in range(days)` loop; `rands.length` is the day count. -/
def runSim (survivors : List Survivor) (rands : List DayRand) (st : SimState) : SimState :=
  runSimAux survivors 0 rands st

/-- The three verdict categories of the final branch. -/
inductive Verdict
  | Collapse
  | Thriving
  | Fragile
deriving Repr, DecidableEq

/-- The first verdict guard: `food <= 0 or morale < 3 or base.defense < 3`. -/
def collapseCond (food morale defense : ℚ) : Prop :=
  food ≤ 0 ∨ morale < 3 ∨ defense < 3

instance (f m d : ℚ) : Decidable (collapseCond f m d) := by
  unfold collapseCond; infer_instance

/-- The second verdict guard: `morale > 7 and food > 30`. -/
def thrivingCond (food morale : ℚ) : Prop :=
  morale > 7 ∧ food > 30

instance (f m : ℚ) : Decidable (thrivingCond f m) := by
  unfold thrivingCond; infer_instance

/-- The final `if/elif/else` verdict branch of `app.py`. -/
def verdict (food morale defense : ℚ) : Verdict :=
  if collapseCond food morale defense then .Collapse
  else if thrivingCond food morale then .Thriving
  else .Fragile

/-- The verdict the program reports after a run: it reads the final local
`food` and `morale` and the (mutated-in-place) `base.defense`. -/
def finalVerdict (st : SimState) : Verdict :=
  verdict st.food st.morale st.base.defense

/-- The displayed `Final Food` metric: `max(food, 0)`. -/
def displayFinalFood (st : SimState) : ℚ := max st.food 0

/-- The displayed `Final Medicine` metric: `max(medicine, 0)`. -/
def displayFinalMedicine (st : SimState) : ℚ := max st.medicine 0

/-- Modelled from the spec: the Daily Update Rule as §4.4 words it — sample
the event, decrement food by `population * 0.8`, apply the morale delta
(−2 if the Base's original food < 20, else +1 if the static roster average
morale > 8, else 0), apply the event-specific effects, append the log line. -/
def specDailyUpdate (survivors : List Survivor) (d : ℕ) (r : DayRand) (st : SimState) : SimState :=
  let event := random_event r.roll
  let st1 := { st with food := st.food - st.base.population * 0.8 }
  let delta : ℚ :=
    if st.base.food < 20 then -2 else if avgMorale survivors > 8 then 1 else 0
  let st2 := { st1 with morale := st1.morale + delta }
  let st3 :=
    if event = "Walker attack" then
      { st2 with base := { st2.base with defense := st2.base.defense - (r.amt : ℚ) }
                 morale := st2.morale - 1 }
    else if event = "Illness outbreak" then
      { st2 with medicine := st2.medicine - (r.amt : ℚ)
                 morale := st2.morale - 2 }
    else if event = "Internal conflict" then st2
    else if event = "Successful scavenging" then
      { st2 with food := st2.food + (r.amt : ℚ)
                 morale := st2.morale + 2 }
    else st2
  { st3 with log := st3.log ++ [logEntry (d + 1) event] }

/-- Every event branch of one loop iteration leaves `base.name`, `base.food`,
`base.medicine` and `base.population` untouched. -/
theorem simDay_base_frame (survivors : List Survivor) (d : ℕ) (r : DayRand) (st : SimState) :
    (simDay survivors d r st).base.name = st.base.name ∧
    (simDay survivors d r st).base.food = st.base.food ∧
    (simDay survivors d r st).base.medicine = st.base.medicine ∧
    (simDay survivors d r st).base.population = st.base.population := by
  simp only [simDay]
  split_ifs <;> exact ⟨rfl, rfl, rfl, rfl⟩

/-- The whole loop leaves `base.name`, `base.food`, `base.medicine` and
`base.population` untouched. -/
theorem runSimAux_base_frame (survivors : List Survivor) (rands : List DayRand) :
    ∀ (d : ℕ) (st : SimState),
      (runSimAux survivors d rands st).base.name = st.base.name ∧
      (runSimAux survivors d rands st).base.food = st.base.food ∧
      (runSimAux survivors d rands st).base.medicine = st.base.medicine ∧
      (runSimAux survivors d rands st).base.population = st.base.population := by
  induction rands with
  | nil => exact fun d st => ⟨rfl, rfl, rfl, rfl⟩
  | cons r rs ih =>
    intro d st
    have h1 := simDay_base_frame survivors d r st
    have h2 := ih (d + 1) (simDay survivors d r st)
    exact ⟨h2.1.trans h1.1, h2.2.1.trans h1.2.1,
           h2.2.2.1.trans h1.2.2.1, h2.2.2.2.trans h1.2.2.2⟩

/-- C3: each day, after the event is sampled, the loop body decrements food by
`population * 0.8` (population read from the Base and never mutated), applies
the morale delta, then applies the event-specific effects with the
`random.randint` magnitudes (`[0,2]` off defense on Walker attack with −1
morale; `[2,6]` off medicine on Illness outbreak with −2 morale; `[10,25]`
onto food on Successful scavenging with +2 morale; nothing on Internal
conflict or Quiet day) — i.e. the loop body coincides with the spec's Daily
Update Rule. -/
theorem day_update_rule (survivors : List Survivor) (d : ℕ) (r : DayRand) (st : SimState)
    (h : r.valid) :
    simDay survivors d r st = specDailyUpdate survivors d r st ∧
    (simDay survivors d r st).base.population = st.base.population := by
  refine ⟨?_, (simDay_base_frame survivors d r st).2.2.2⟩
  simp only [simDay, specDailyUpdate, morale_change, daily_food_consumption]
  split_ifs <;> first | rfl | simp_all

/-- Witness for C3: a valid Walker-attack day (roll 10, magnitude 1) from the
Prison start state satisfies the Daily Update Rule. -/
theorem day_update_rule_witness :
    DayRand.valid ⟨10, 1⟩ ∧
    simDay SURVIVORS 0 ⟨10, 1⟩ (initState Prison SURVIVORS)
      = specDailyUpdate SURVIVORS 0 ⟨10, 1⟩ (initState Prison SURVIVORS) :=
  ⟨by decide,
   (day_update_rule SURVIVORS 0 ⟨10, 1⟩ (initState Prison SURVIVORS) (by decide)).1⟩

/-- C4: the per-day morale delta is −2 when the Base's original food field is
below 20, else +1 when the static roster average morale exceeds 8, else 0;
it never reads the running local food or morale, so after any number of
simulated days the delta recomputed from the run's final state is still the
same value. -/
theorem morale_delta_rule (base : Base) (survivors : List Survivor) (rands : List DayRand) :
    morale_change base survivors
      = (if base.food < 20 then -2 else if avgMorale survivors > 8 then 1 else 0) ∧
    morale_change (runSim survivors rands (initState base survivors)).base survivors
      = morale_change base survivors := by
  refine ⟨rfl, ?_⟩
  have h := (runSimAux_base_frame survivors rands 0 (initState base survivors)).2.1
  unfold morale_change
  rw [show (runSim survivors rands (initState base survivors)).base.food = base.food from h]

/-- C8: a run of any length mutates only the defense field of the shared
`Base` object: `base.name`, `base.food`, `base.medicine` and
`base.population` keep their pre-run values (the running food, medicine and
morale live in the local `SimState` fields, and the survivor roster is an
immutable input the loop never writes). -/
theorem only_defense_mutated (survivors : List Survivor) (rands : List DayRand) (st : SimState) :
    (runSim survivors rands st).base.name = st.base.name ∧
    (runSim survivors rands st).base.food = st.base.food ∧
    (runSim survivors rands st).base.medicine = st.base.medicine ∧
    (runSim survivors rands st).base.population = st.base.population :=
  runSimAux_base_frame survivors rands 0 st

/-- The log entries produced by the loop from 0-based day `d` on. -/
def specLog : ℕ → List DayRand → List String
  | _, [] => []
  | d, r :: rs => logEntry (d + 1) (random_event r.roll) :: specLog (d + 1) rs

/-- Each loop iteration appends exactly one log line, `Day d+1: event`. -/
theorem simDay_log (survivors : List Survivor) (d : ℕ) (r : DayRand) (st : SimState) :
    (simDay survivors d r st).log = st.log ++ [logEntry (d + 1) (random_event r.roll)] := by
  simp only [simDay]
  split_ifs <;> rfl

/-- The loop's log is the starting log followed by one line per day. -/
theorem runSimAux_log (survivors : List Survivor) (rands : List DayRand) :
    ∀ (d : ℕ) (st : SimState),
      (runSimAux survivors d rands st).log = st.log ++ specLog d rands := by
  induction rands with
  | nil => intro d st; simp [runSimAux, specLog]
  | cons r rs ih =>
    intro d st
    rw [show runSimAux survivors d (r :: rs) st
          = runSimAux survivors (d + 1) rs (simDay survivors d r st) from rfl,
        ih (d + 1) (simDay survivors d r st), simDay_log]
    simp [specLog]

/-- `specLog` has one entry per day. -/
theorem specLog_length (rands : List DayRand) : ∀ d : ℕ, (specLog d rands).length = rands.length := by
  induction rands with
  | nil => intro d; rfl
  | cons r rs ih => intro d; simp [specLog, ih (d + 1)]

/-- The `i`-th entry of `specLog d` is the day `d+i+1` line for the `i`-th roll. -/
theorem specLog_getD (rands : List DayRand) :
    ∀ (d i : ℕ), i < rands.length →
      (specLog d rands).getD i "" = logEntry (d + i + 1) (random_event ((rands.getD i ⟨1, 0⟩).roll)) := by
  induction rands with
  | nil => intro d i hi; exact absurd hi (by simp)
  | cons r rs ih =>
    intro d i hi
    cases i with
    | zero => rfl
    | succ j =>
      have hj : j < rs.length := by simpa using hi
      have h := ih (d + 1) j hj
      simpa [specLog, show d + 1 + j = d + (j + 1) from by omega] using h

/-- C1: the verdict is computed from the final local food, final local morale
and `base.defense`, in this order: Collapse if `food ≤ 0 ∨ morale < 3 ∨
defense < 3` (checked first), else Thriving if `morale > 7 ∧ food > 30`, else
Fragile; and the verdict reads the pre-clamp food while the displayed Final
Food and Final Medicine are clamped to zero via `max(·, 0)` at display time
only. -/
theorem verdict_from_final_state (st : SimState) :
    finalVerdict st = verdict st.food st.morale st.base.defense ∧
    displayFinalFood st = max st.food 0 ∧
    displayFinalMedicine st = max st.medicine 0 ∧
    ∀ f m d : ℚ,
      (verdict f m d = Verdict.Collapse ↔ (f ≤ 0 ∨ m < 3 ∨ d < 3)) ∧
      (verdict f m d = Verdict.Thriving ↔
        ¬(f ≤ 0 ∨ m < 3 ∨ d < 3) ∧ (m > 7 ∧ f > 30)) ∧
      (verdict f m d = Verdict.Fragile ↔
        ¬(f ≤ 0 ∨ m < 3 ∨ d < 3) ∧ ¬(m > 7 ∧ f > 30)) := by
  refine ⟨rfl, rfl, rfl, fun f m d => ?_⟩
  unfold verdict
  split_ifs with h1 h2 <;> simp_all [collapseCond, thrivingCond]

/-- C2: every roll in `[1, 100]` maps to exactly one of the five events, with
rolls 1–29 giving "Walker attack", 30–44 "Illness outbreak", 45–59
"Internal conflict", 60–74 "Successful scavenging" and 75–100 "Quiet day" —
no gap and no overlap between buckets. -/
theorem random_event_buckets (roll : ℤ) (hlo : 1 ≤ roll) (hhi : roll ≤ 100) :
    (random_event roll = "Walker attack" ∨ random_event roll = "Illness outbreak" ∨
      random_event roll = "Internal conflict" ∨
      random_event roll = "Successful scavenging" ∨
      random_event roll = "Quiet day") ∧
    (random_event roll = "Walker attack" ↔ roll ≤ 29) ∧
    (random_event roll = "Illness outbreak" ↔ 30 ≤ roll ∧ roll ≤ 44) ∧
    (random_event roll = "Internal conflict" ↔ 45 ≤ roll ∧ roll ≤ 59) ∧
    (random_event roll = "Successful scavenging" ↔ 60 ≤ roll ∧ roll ≤ 74) ∧
    (random_event roll = "Quiet day" ↔ 75 ≤ roll) := by
  unfold random_event
  split_ifs <;> refine ⟨?_, ?_, ?_, ?_, ?_, ?_⟩ <;> simp <;> omega

/-- Witness for C2 at the 29/30 boundary: a roll of 30 is in range and lands
in the "Illness outbreak" bucket. -/
theorem random_event_buckets_witness :
    random_event 30 = "Illness outbreak" :=
  ((random_event_buckets 30 (by decide) (by decide)).2.2.1).mpr (by decide)

/-- C6: the derived metrics are pure functions of entity attributes, rounded
to 2 decimal places, with exactly the stated formulas for all attribute
values; for strength 9, stamina 8, morale 9 the combat power is 8.7. -/
theorem derived_metric_formulas :
    (∀ s : Survivor,
      s.combat_power = round2 (s.strength * 0.5 + s.stamina * 0.3 + s.morale * 0.2)) ∧
    (∀ s : Survivor, s.efficiency = round2 ((s.intelligence + s.stamina) / 2)) ∧
    (∀ b : Base, b.safety_score = round2 ((b.defense + b.population) / 2)) ∧
    (∀ t : Transport, t.risk = round2 (t.noise * 0.6 + (10 - t.speed) * 0.4)) ∧
    Survivor.combat_power ⟨"Rick", 9, 7, 8, 9, "Leader", true⟩ = 8.7 := by
  refine ⟨fun s => rfl, fun s => rfl, fun b => rfl, fun t => rfl, ?_⟩
  have h : Survivor.combat_power ⟨"Rick", 9, 7, 8, 9, "Leader", true⟩ = round2 (87 / 10) := by
    norm_num [Survivor.combat_power]
  rw [h]
  unfold round2 roundHalfEven
  norm_num [Int.fract, round_eq]

/-- C5: a run over `N` sampled days produces exactly `N` log entries, the
`i`-th (0-based) being `Day i+1: event`; a 0-day run leaves the log empty and
the local food, medicine and morale at their seeded initial values
(`base.food`, `base.medicine` and the roster's average morale). -/
theorem run_log_shape (survivors : List Survivor) (base : Base) (rands : List DayRand) :
    (runSim survivors rands (initState base survivors)).log.length = rands.length ∧
    (∀ i : ℕ, i < rands.length →
      (runSim survivors rands (initState base survivors)).log.getD i ""
        = "Day " ++ toString (i + 1) ++ ": " ++ random_event ((rands.getD i ⟨1, 0⟩).roll)) ∧
    (runSim survivors [] (initState base survivors)).log = [] ∧
    (runSim survivors [] (initState base survivors)).food = base.food ∧
    (runSim survivors [] (initState base survivors)).medicine = base.medicine ∧
    (runSim survivors [] (initState base survivors)).morale = avgMorale survivors := by
  have hlog : (runSim survivors rands (initState base survivors)).log = specLog 0 rands := by
    rw [show runSim survivors rands (initState base survivors)
          = runSimAux survivors 0 rands (initState base survivors) from rfl,
        runSimAux_log]
    rfl
  refine ⟨?_, ?_, rfl, rfl, rfl, rfl⟩
  · rw [hlog]; exact specLog_length rands 0
  · intro i hi
    rw [hlog, specLog_getD rands 0 i hi]
    simp [logEntry]

/-- Witness for C5: with rolls 10 then 80 from the Prison start state, the
second log entry is `Day 2: Quiet day`. -/
theorem run_log_shape_witness :
    (runSim SURVIVORS [⟨10, 1⟩, ⟨80, 0⟩] (initState Prison SURVIVORS)).log.getD 1 ""
      = "Day 2: Quiet day" := by
  rw [(run_log_shape SURVIVORS Prison [⟨10, 1⟩, ⟨80, 0⟩]).2.1 1 (by decide)]
  decide

/-- Counterexample to C7 as stated: at food 35, morale 8, defense 0 the
Collapse guard and the Thriving guard hold simultaneously, so the two
conditions are not mutually exclusive over all numeric values. -/
theorem collapse_thriving_overlap :
    collapseCond 35 8 0 ∧ thrivingCond 35 8 ∧ verdict 35 8 0 = Verdict.Collapse := by
  decide

/-- C7 (amended): the Collapse and Thriving conditions can hold at once (for
instance when defense < 3 while morale > 7 and food > 30); whenever the
Collapse condition holds the classifier returns Collapse, because that guard
is checked first. -/
theorem collapse_checked_first (f m d : ℚ) (h : collapseCond f m d) :
    verdict f m d = Verdict.Collapse := by
  simp [verdict, h]

/-- Witness for the amended C7: food −5, morale 9, defense 9 satisfies the
Collapse guard and the verdict is Collapse. -/
theorem collapse_checked_first_witness :
    verdict (-5) 9 9 = Verdict.Collapse :=
  collapse_checked_first (-5) 9 9 (Or.inl (by norm_num))

/-- One valid day never increases `base.defense` or the local medicine. -/
theorem simDay_mono (survivors : List Survivor) (d : ℕ) (r : DayRand) (st : SimState)
    (h : r.valid) :
    (simDay survivors d r st).base.defense ≤ st.base.defense ∧
    (simDay survivors d r st).medicine ≤ st.medicine := by
  obtain ⟨-, -, h3⟩ := h
  simp only [simDay]
  split_ifs with hw hi hs
  · rw [hw] at h3
    simp [amtRange] at h3
    have hc : (0 : ℚ) ≤ (r.amt : ℚ) := by exact_mod_cast h3.1
    exact ⟨sub_le_self _ hc, le_refl _⟩
  · rw [hi] at h3
    simp [amtRange] at h3
    have hc : (0 : ℚ) ≤ (r.amt : ℚ) := by
      have : (0 : ℤ) ≤ r.amt := by omega
      exact_mod_cast this
    exact ⟨le_refl _, sub_le_self _ hc⟩
  · exact ⟨le_refl _, le_refl _⟩
  · exact ⟨le_refl _, le_refl _⟩

/-- Defense and medicine are non-increasing across any valid run. -/
theorem runSimAux_mono (survivors : List Survivor) (rands : List DayRand) :
    ∀ (d : ℕ) (st : SimState), (∀ r ∈ rands, r.valid) →
      (runSimAux survivors d rands st).base.defense ≤ st.base.defense ∧
      (runSimAux survivors d rands st).medicine ≤ st.medicine := by
  induction rands with
  | nil => exact fun d st _ => ⟨le_refl _, le_refl _⟩
  | cons r rs ih =>
    intro d st hv
    have h1 := simDay_mono survivors d r st (hv r (by simp))
    have h2 := ih (d + 1) (simDay survivors d r st) (fun x hx => hv x (by simp [hx]))
    exact ⟨h2.1.trans h1.1, h2.2.trans h1.2⟩

/-- C9: across every run with draws in the `random.randint` ranges,
`base.defense` and the local medicine are monotonically non-increasing — no
event ever increases either (defense changes only by subtracting a `[0,2]`
draw on Walker attack, medicine only by subtracting a `[2,6]` draw on
Illness outbreak). -/
theorem defense_medicine_monotone (survivors : List Survivor) (rands : List DayRand)
    (st : SimState) (hv : ∀ r ∈ rands, r.valid) :
    (runSim survivors rands st).base.defense ≤ st.base.defense ∧
    (runSim survivors rands st).medicine ≤ st.medicine ∧
    ∀ (d : ℕ) (r : DayRand) (st2 : SimState), r.valid →
      (simDay survivors d r st2).base.defense ≤ st2.base.defense ∧
      (simDay survivors d r st2).medicine ≤ st2.medicine := by
  have h := runSimAux_mono survivors rands 0 st hv
  exact ⟨h.1, h.2, fun d r st2 hr => simDay_mono survivors d r st2 hr⟩

/-- Witness for C9: two valid days (Walker attack with draw 1, Illness
outbreak with draw 3) from the Prison start state leave defense and medicine
at most their initial values. -/
theorem defense_medicine_monotone_witness :
    (runSim SURVIVORS [⟨10, 1⟩, ⟨35, 3⟩] (initState Prison SURVIVORS)).base.defense
      ≤ (initState Prison SURVIVORS).base.defense ∧
    (runSim SURVIVORS [⟨10, 1⟩, ⟨35, 3⟩] (initState Prison SURVIVORS)).medicine
      ≤ (initState Prison SURVIVORS).medicine := by
  have h := defense_medicine_monotone SURVIVORS [⟨10, 1⟩, ⟨35, 3⟩]
    (initState Prison SURVIVORS) (by decide)
  exact ⟨h.1, h.2.1⟩

/-- Agreement of two `Base` objects on every field except medicine. -/
def baseAgrees (b1 b2 : Base) : Prop :=
  b1.name = b2.name ∧ b1.defense = b2.defense ∧ b1.food = b2.food ∧
  b1.population = b2.population

/-- Agreement of two run states on everything except the medicine values. -/
def stAgrees (s1 s2 : SimState) : Prop :=
  baseAgrees s1.base s2.base ∧ s1.food = s2.food ∧ s1.morale = s2.morale ∧
  s1.log = s2.log

/-- One loop iteration preserves medicine-oblivious agreement: the loop reads
`base.population`, `base.food`, `base.defense`, the roll, the local food and
morale — never a medicine value. -/
theorem simDay_agrees (survivors : List Survivor) (d : ℕ) (r : DayRand) (s1 s2 : SimState)
    (h : stAgrees s1 s2) : stAgrees (simDay survivors d r s1) (simDay survivors d r s2) := by
  obtain ⟨⟨hn, hd, hf, hp⟩, hfo, hm, hl⟩ := h
  simp only [simDay, stAgrees, baseAgrees]
  split_ifs <;> simp_all [morale_change, daily_food_consumption]

/-- The whole loop preserves medicine-oblivious agreement. -/
theorem runSimAux_agrees (survivors : List Survivor) (rands : List DayRand) :
    ∀ (d : ℕ) (s1 s2 : SimState), stAgrees s1 s2 →
      stAgrees (runSimAux survivors d rands s1) (runSimAux survivors d rands s2) := by
  induction rands with
  | nil => exact fun _ _ _ h => h
  | cons r rs ih =>
    intro d s1 s2 h
    exact ih (d + 1) _ _ (simDay_agrees survivors d r s1 s2 h)

/-- C10: the event log and the verdict are independent of medicine — two runs
with identical draws, day count and base fields other than medicine produce
the same log and the same verdict, because medicine is only written inside
the loop and the verdict reads food, morale and `base.defense` only. -/
theorem medicine_noninterference (survivors : List Survivor) (rands : List DayRand)
    (b1 b2 : Base) (hn : b1.name = b2.name) (hd : b1.defense = b2.defense)
    (hf : b1.food = b2.food) (hp : b1.population = b2.population) :
    (runSim survivors rands (initState b1 survivors)).log
      = (runSim survivors rands (initState b2 survivors)).log ∧
    finalVerdict (runSim survivors rands (initState b1 survivors))
      = finalVerdict (runSim survivors rands (initState b2 survivors)) := by
  have h0 : stAgrees (initState b1 survivors) (initState b2 survivors) :=
    ⟨⟨hn, hd, hf, hp⟩, hf, rfl, rfl⟩
  have h := runSimAux_agrees survivors rands 0 _ _ h0
  obtain ⟨⟨-, hd', -, -⟩, hf', hm', hl'⟩ := h
  refine ⟨hl', ?_⟩
  unfold finalVerdict
  rw [show runSim survivors rands (initState b1 survivors)
        = runSimAux survivors 0 rands (initState b1 survivors) from rfl,
      show runSim survivors rands (initState b2 survivors)
        = runSimAux survivors 0 rands (initState b2 survivors) from rfl,
      hf', hm', hd']

/-- Witness for C10: the Prison base and a Prison variant whose medicine is
123 produce the same log and verdict under the same single-day draw. -/
theorem medicine_noninterference_witness :
    (runSim SURVIVORS [⟨50, 0⟩] (initState Prison SURVIVORS)).log
      = (runSim SURVIVORS [⟨50, 0⟩] (initState ⟨"Prison", 9, 70, 123, 30⟩ SURVIVORS)).log ∧
    finalVerdict (runSim SURVIVORS [⟨50, 0⟩] (initState Prison SURVIVORS))
      = finalVerdict (runSim SURVIVORS [⟨50, 0⟩] (initState ⟨"Prison", 9, 70, 123, 30⟩ SURVIVORS)) :=
  medicine_noninterference SURVIVORS [⟨50, 0⟩] Prison ⟨"Prison", 9, 70, 123, 30⟩ rfl rfl rfl rfl

end WDS
